import Mathlib

/-!
Shallow embedding of `src/decorator.py`.

The script demonstrates first-class functions, closures and decorators.
Modelling conventions:
- A printed line is a `String`; the effect of a call is the list of lines it
  emits, in order, paired with its return value.
- Python `None` is modelled as `Option.none`; a numeric result `v` as `some v`.
- Python true division `a / b` on integers is modelled as exact rational
  division (every value the script divides is exactly representable);
  the `ZeroDivisionError` it raises when `b = 0` is modelled with `Except`.
- A nullary effectful callable is `Callable0 α`; a binary one over integer
  arguments, which may raise, is `Callable2 α`.
-/

namespace Decorator

/-- The single error kind a callable of the script can raise. -/
inductive PyErr where
  | zeroDivisionError
deriving DecidableEq

/-- A nullary Python callable: invoking it emits lines and returns a value. -/
def Callable0 (α : Type) : Type := Unit → List String × α

/-- A binary Python callable on integers: invoking it emits lines and either
returns a value or raises. -/
def Callable2 (α : Type) : Type := Int → Int → List String × Except PyErr α

/-- `def square(x): return x * x` -/
def square (x : Int) : Int := x * x

/-- `f = square` -/
def f : Int → Int := square

/-- `def add_one(func, num): return func(num) + 1` -/
def add_one (func : Int → Int) (num : Int) : Int := func num + 1

/-- `def html_tag(tag): def wrap_text(msg): print("<{0}>{1}</{0}>".format(tag, msg)); return wrap_text` —
the returned wrapper prints the tagged message and returns `None`. -/
def html_tag (tag : String) : String → List String × Option Rat :=
  fun msg => (["<" ++ tag ++ ">" ++ msg ++ "</" ++ tag ++ ">"], none)

/-- `def decorator(func): def wrapper(): print("Before function"); func(); print("After function"); return wrapper` —
the wrapper discards the result of `func` and returns `None`. -/
def decorator {α : Type} (func : Callable0 α) : Callable0 (Option α) :=
  fun _ => (["Before function"] ++ (func ()).1 ++ ["After function"], none)

/-- `def say_hello(): print("Hello!")` (returns `None`). -/
def say_hello : Callable0 (Option Rat) :=
  fun _ => (["Hello!"], none)

/-- `def reminder(func): def inner_method(): func(); print("Don't forget..."); return inner_method`
(the closure version that overwrites the earlier eager one). -/
def reminder {α : Type} (func : Callable0 α) : Callable0 (Option α) :=
  fun _ => ((func ()).1 ++ ["Don\x27t forget..."], none)

/-- `def action3(): print("I want to buy sth3")` (returns `None`). -/
def action3 : Callable0 (Option Rat) :=
  fun _ => (["I want to buy sth3"], none)

/-- `def check(func): def inside(a, b): if b == 0: print("Can't divide by 0"); return; return func(a, b); return inside` —
on the guarded branch the wrapper returns `None`; otherwise it returns the
result of `func` unchanged (and propagates anything `func` raises). -/
def check {α : Type} (func : Callable2 α) : Callable2 (Option α) :=
  fun a b =>
    if b = 0 then (["Can\x27t divide by 0"], Except.ok none)
    else ((func a b).1, (func a b).2.map some)

/-- `def div(a, b): return a / b` — the original body before reassignment;
raises `ZeroDivisionError` when `b = 0`. -/
def divBody : Callable2 Rat :=
  fun a b =>
    ([], if b = 0 then Except.error PyErr.zeroDivisionError
         else Except.ok ((a : Rat) / (b : Rat)))

/-- `div = check(div)` — the manual reassignment. -/
def div : Callable2 (Option Rat) := check divBody

/-- The body of `div2` as written under the decorator: `return a / b`. -/
def div2Body : Callable2 Rat :=
  fun a b =>
    ([], if b = 0 then Except.error PyErr.zeroDivisionError
         else Except.ok ((a : Rat) / (b : Rat)))

/-- `@check def div2(a, b): return a / b` — decoration binds `div2` to
`check` applied to the written body. -/
def div2 : Callable2 (Option Rat) := check div2Body

/-- The text `print(x)` emits for a value of type `float | None`: `None`
prints as `"None"`; an integral float `q` prints as its numerator followed by
`".0"` (the only float reprs the script exercises). -/
def pyRepr : Option Rat → String
  | none => "None"
  | some q => if q.den = 1 then toString q.num ++ ".0" else toString q

/-- The line a `print(e)` statement emits, given the outcome of evaluating
`e`: if `e` raised, the exception propagates and `print` never runs. -/
def printedLine : Except PyErr (Option Rat) → Option String
  | Except.ok v => some (pyRepr v)
  | Except.error _ => none

/-- Invoking a wrapper once per element of an argument list, in order,
concatenating the emitted lines and collecting the results. -/
def invokeAll {β γ : Type} (w : β → List String × γ) : List β → List String × List γ
  | [] => ([], [])
  | a :: rest => ((w a).1 ++ (invokeAll w rest).1, (w a).2 :: (invokeAll w rest).2)

/-- In a sequence of invocations, each invocation's lines and result are those
of the wrapper applied to that invocation's own arguments alone. -/
theorem invokeAll_eq {β γ : Type} (w : β → List String × γ) (args : List β) :
    invokeAll w args = ((args.map fun a => (w a).1).flatten, args.map fun a => (w a).2) := by
  induction args with
  | nil => rfl
  | cons a rest ih => simp [invokeAll, ih]

/-- C1: for the wrapper built by `check` from a division function, a zero second
argument short-circuits — the outcome is the same for every wrapped callable, so
the underlying division is never invoked, and no numeric result is yielded —
while for a nonzero divisor the wrapper returns exactly `x / y` and emits no
diagnostic line. -/
theorem check_guards_division (x y : Int) (g h : Callable2 Rat) (hy : y ≠ 0) :
    check g x 0 = check h x 0 ∧
    (check g x 0).2 = Except.ok none ∧
    check divBody x y = ([], Except.ok (some ((x : Rat) / (y : Rat)))) := by
  refine ⟨rfl, rfl, ?_⟩
  simp [check, divBody, hy, Except.map]

/-- Witness for C1 at `x = 10`, `y = 2`, with two distinct wrapped callables. -/
theorem check_guards_division_witness :
    check divBody 10 0 = check (fun _ _ => ([], Except.ok (0 : Rat))) 10 0 ∧
    (check divBody 10 0).2 = Except.ok none ∧
    check divBody 10 2 = ([], Except.ok (some (((10 : Int) : Rat) / ((2 : Int) : Rat)))) :=
  check_guards_division 10 2 divBody (fun _ _ => ([], Except.ok 0)) (by decide)

/-- C2: one invocation of the wrapper built by `decorator` emits the pre-action
line, then the wrapped callable's own lines exactly once, then the post-action
line, in that order — shown generically and on the concrete `say_hello`. -/
theorem decorator_wrapper_order {α : Type} (func : Callable0 α) :
    (decorator func ()).1 = ["Before function"] ++ (func ()).1 ++ ["After function"] ∧
    decorator say_hello () = (["Before function", "Hello!", "After function"], none) :=
  ⟨rfl, rfl⟩

/-- C3: the function bound by `@check` decoration (`div2`) and the function
obtained by manual reassignment (`div = check(div)`) produce identical results
and identical diagnostic output on all arguments. -/
theorem at_syntax_equals_reassignment (a b : Int) : div a b = div2 a b := rfl

/-- C4: the factory called with tag `h1` and message `Test Headline!` emits
exactly that headline line; called again with tag `p` and message
`Test Paragraph!` it emits exactly that paragraph line, and the second
wrapper's output after any first wrapper ran is the same fixed line,
independent of the first wrapper's tag. -/
theorem html_tag_outputs :
    (html_tag ("h1") ("Test Headline!")).1 = ["<h1>Test Headline!</h1>"] ∧
    (html_tag ("p") ("Test Paragraph!")).1 = ["<p>Test Paragraph!</p>"] ∧
    ∀ firstTag firstMsg : String,
      (html_tag firstTag firstMsg).1 ++ (html_tag ("p") ("Test Paragraph!")).1 =
        (html_tag firstTag firstMsg).1 ++ ["<p>Test Paragraph!</p>"] :=
  ⟨rfl, rfl, fun _ _ => rfl⟩

/-- C5: the concrete scenario values: `square 5 = 25`, `add_one square 3 = 10`,
`div2 10 0` emits the diagnostic and yields no numeric result, and
`div2 10 2` returns `5.0`. -/
theorem scenario_values :
    square 5 = 25 ∧
    add_one square 3 = 10 ∧
    div2 10 0 = (["Can\x27t divide by 0"], Except.ok none) ∧
    div2 10 2 = ([], Except.ok (some (5 : Rat))) := by
  refine ⟨rfl, rfl, rfl, ?_⟩
  show check div2Body 10 2 = _
  norm_num [check, div2Body, Except.map]

/-- C6 (counterexample): the guarded result of `div(10, 0)` is `None`, which
already differs by value from the legitimate zero-valued result of `div(0, 5)`
— no diagnostic is needed to tell them apart, so the two are not
distinguishable only by the accompanying diagnostic. -/
theorem guarded_result_differs_from_zero :
    (check divBody 10 0).2 ≠ Except.ok (some (0 : Rat)) ∧
    (check divBody 0 5).2 = Except.ok (some (0 : Rat)) := by
  constructor
  · simp [check]
  · norm_num [check, divBody, Except.map]

/-- C6 (amended): for every `x`, calling the guarded wrapper with divisor 0
never propagates an error to the caller and only emits the diagnostic line,
and the yielded result (`None`) differs by value from every numeric result,
so it is distinguishable from a legitimate zero-valued result both by its
value and by the accompanying diagnostic. -/
theorem guard_absorbs_invalid_divisor (x : Int) :
    check divBody x 0 = (["Can\x27t divide by 0"], Except.ok none) ∧
    ∀ q : Rat, (check divBody x 0).2 ≠ Except.ok (some q) := by
  refine ⟨rfl, ?_⟩
  intro q h
  simp [check] at h

/-- C7: composing `decorator` twice nests the layers — the combined trace is
the outer pre-action, then the inner pre-action, then the innermost callable's
lines, then the inner post-action, then the outer post-action. -/
theorem decorator_nests {α : Type} (func : Callable0 α) :
    (decorator (decorator func) ()).1 =
      ["Before function"] ++
        (["Before function"] ++ (func ()).1 ++ ["After function"]) ++
        ["After function"] := rfl

/-- C8: the wrappers built by `check`, `decorator`, `reminder` and `html_tag`
are stateless across invocations: over every invocation sequence, each
invocation's lines and result are those of the same construction-time wrapper
applied to that invocation's own arguments alone, so the captured callable is
never replaced and repeated invocations with the same arguments behave
identically. -/
theorem wrappers_stateless {α : Type} (func2 : Callable2 α) (func0 : Callable0 α)
    (tag : String) (args2 : List (Int × Int)) (args0 : List Unit) (msgs : List String) :
    invokeAll (fun p => check func2 p.1 p.2) args2 =
      ((args2.map fun p => (check func2 p.1 p.2).1).flatten,
        args2.map fun p => (check func2 p.1 p.2).2) ∧
    invokeAll (decorator func0) args0 =
      ((args0.map fun u => (decorator func0 u).1).flatten,
        args0.map fun u => (decorator func0 u).2) ∧
    invokeAll (reminder func0) args0 =
      ((args0.map fun u => (reminder func0 u).1).flatten,
        args0.map fun u => (reminder func0 u).2) ∧
    invokeAll (html_tag tag) msgs =
      ((msgs.map fun m => (html_tag tag m).1).flatten,
        msgs.map fun m => (html_tag tag m).2) :=
  ⟨invokeAll_eq _ _, invokeAll_eq _ _, invokeAll_eq _ _, invokeAll_eq _ _⟩

/-- C9: the pass-through-augmentation wrappers discard the wrapped callable's
return value: for every callable, the wrappers built by `decorator` and by
`reminder` return `None`. -/
theorem augmentation_wrappers_return_none {α : Type} (func : Callable0 α) :
    (decorator func ()).2 = none ∧ (reminder func ()).2 = none :=
  ⟨rfl, rfl⟩

/-- C10: the demo statement `print(div(10, 0))` emits exactly two lines — the
diagnostic, then `None` — and the guarded result differs by value from every
legitimate numeric result, including 0. -/
theorem print_div_by_zero :
    (div 10 0).1 ++ (printedLine (div 10 0).2).toList =
      ["Can\x27t divide by 0", "None"] ∧
    ∀ q : Rat, (div 10 0).2 ≠ Except.ok (some q) := by
  refine ⟨rfl, ?_⟩
  intro q h
  simp [div, check] at h

end Decorator
